import Mathlib

/-!
Verification of the cwxn weather-status-line generator (src/bin/user/cwxn.py)
against its natural-language specification.

Shallow embedding conventions:
* Python numbers (ints and floats of this program) are modelled as exact
  rationals.  The observation packet is a Python dict, modelled as an
  association list from key to optional rational, where a value of none
  models the Python value None, and a missing key models absence.
* Fallible Python code is modelled in the Except monad over PyErr.
* External collaborators that are not part of this repository, namely the
  weewx unit-conversion machinery, the weeutil startOfDay helper, the SQL
  store behind dbm.getSql and time.strftime/localtime, are modelled as
  parameters or from the words of the specification; each such definition
  says so in its doc comment.  All code of the repository itself is
  translated directly from src/bin/user/cwxn.py.
-/

namespace Cwxn

/-- Errors the embedded Python code can raise: a dict lookup of a missing
key (KeyError), use of None where a number is required (TypeError), and an
undefined unit/quantity combination in the unit converter (the
ConversionError of spec section 7). -/
inductive PyErr where
  | keyError (key : String)
  | typeError
  | convError
deriving DecidableEq

/-- An observation packet: a Python dict from key to float-or-None.
A list entry (k, none) models a key present with value None; a key with no
entry models an absent key. -/
abbrev Packet := List (String × Option ℚ)

/-- Python dict.get(key): none when the key is absent or its value is None.
Used for packet.get(usUnits) at line 151. -/
def pyGet (p : Packet) (k : String) : Option ℚ :=
  match p.lookup k with
  | some v => v
  | none => none

/-- Python dict[key]: raises KeyError when the key is absent
(e.g. packet[dateTime] at line 153, packet[windspeed] at line 163). -/
def pyItem (p : Packet) (k : String) : Except PyErr (Option ℚ) :=
  match p.lookup k with
  | some v => .ok v
  | none => .error (.keyError k)

/-- Python `k in p`, the membership test used at lines 197 and 204. -/
def hasKey (p : Packet) (k : String) : Bool :=
  (p.lookup k).isSome

/-- Python `k in p and p[k] is not None`, the guard of lines 156, 162,
168, 174, 180 and 186. -/
def hasVal (p : Packet) (k : String) : Bool :=
  match p.lookup k with
  | some (some _) => true
  | _ => false

/-- Use of a possibly-None Python value where a number is required
(feeding it through the unit converter and int()): None raises a
TypeError. -/
def pyNum (v : Option ℚ) : Except PyErr ℚ :=
  match v with
  | some q => .ok q
  | none => .error .typeError

/-- Python int() on a float: truncation toward zero, exact on our rational
model of the value. -/
def pyInt (q : ℚ) : ℤ :=
  Int.tdiv q.num q.den

/-- Decimal digit characters of a natural number, most significant first,
with explicit structural fuel (the first argument) so that the definition
evaluates in the kernel.  natChars below always supplies enough fuel. -/
def natCharsGo : ℕ → ℕ → List Char
  | 0, n => [Nat.digitChar n]
  | fuel + 1, n =>
    if n < 10 then [Nat.digitChar n]
    else natCharsGo fuel (n / 10) ++ [Nat.digitChar (n % 10)]

/-- Decimal digit characters of a natural number, most significant first;
natChars 0 = [0-digit], matching Python rendering of 0. -/
def natChars (n : ℕ) : List Char :=
  natCharsGo n n

/-- Left-pad a digit list with zeros to width w (no-op when already at
least that wide). -/
def padZero (w : ℕ) (s : List Char) : List Char :=
  List.replicate (w - s.length) '0' ++ s

/-- Python "%0Nd" formatting of an integer: zero-padded to total width w,
with a leading minus sign counted inside the width for negative values
(as Python does). -/
def pyFmtD (w : ℕ) (n : ℤ) : String :=
  if n < 0 then String.mk ('-' :: padZero (w - 1) (natChars n.natAbs))
  else String.mk (padZero w (natChars n.natAbs))

/-- The archive handle (dbm): the rows of the weewx archive table that the
three rain queries read, as pairs of dateTime and a nullable rain depth. -/
structure DbManager where
  rows : List (ℚ × Option ℚ)

/-- Result of SQLite SELECT SUM(rain) ... WHERE dateTime>sts AND
dateTime<=ts over the rows: SUM ignores NULL operands and is NULL when no
row in the window carries a non-NULL rain value.  This models the query
text of lines 92-94, 102-104 and 112-114. -/
def sqliteSumRain (rows : List (ℚ × Option ℚ)) (sts ts : ℚ) : Option ℚ :=
  let depths := (rows.filter fun r => decide (sts < r.1) && decide (r.1 ≤ ts)).filterMap Prod.snd
  if depths.isEmpty then none else some depths.sum

/-- Modelled from the spec: dbm.getSql for the SUM query (the archive
query mechanism of spec section 4.2, an external collaborator at this
boundary).  A SELECT SUM statement always produces exactly one result row,
so getSql returns some row whose single column is the (possibly NULL)
sum. -/
def getSqlSumRain (dbm : DbManager) (sts ts : ℚ) : Option (Option ℚ) :=
  some (sqliteSumRain dbm.rows sts ts)

/-- calcRainHour (lines 90-97): sum of rain over (ts - 3600, ts]; None
when getSql returns no row, else the single column of the row. -/
def calcRainHour (dbm : DbManager) (ts : ℚ) : Option ℚ :=
  let sts := ts - 3600
  match getSqlSumRain dbm sts ts with
  | none => none
  | some v => v

/-- calcRain24 (lines 100-107): sum of rain over (ts - 86400, ts]. -/
def calcRain24 (dbm : DbManager) (ts : ℚ) : Option ℚ :=
  let sts := ts - 86400
  match getSqlSumRain dbm sts ts with
  | none => none
  | some v => v

/-- calcDayRain (lines 110-117): sum of rain over (startOfDay ts, ts].
The sod parameter models weeutil.weeutil.startOfDay (line 111), an
external collaborator computing local midnight; it is kept abstract. -/
def calcDayRain (sod : ℚ → ℚ) (dbm : DbManager) (ts : ℚ) : Option ℚ :=
  let sts := sod ts
  match getSqlSumRain dbm sts ts with
  | none => none
  | some v => v

/-- Modelled from the spec: the weewx unit-resolution and conversion
machinery (weewx.units.getStandardUnitType and weewx.units.convert,
external collaborators used by convert at lines 77-81).  Per spec section
4.1 a conversion either fails with a ConversionError when the
quantity/unit combination is undefined, or is a numeric (linear or
affine) map of the value; hence the combination, not the value, decides
success, and conv returns the map for a given metric, unit group, source
unit system and target unit. -/
structure UnitConv where
  conv : String → String → Option ℚ → String → Except PyErr (ℚ → ℚ)

/-- convert (lines 77-81): resolve the source unit of the metric under
the packet unit system and re-express v in the target unit. -/
def convert (cv : UnitConv) (v : ℚ) (metric group : String) (pu : Option ℚ)
    (toUnits : String) : Except PyErr ℚ :=
  (cv.conv metric group pu toUnits).map fun f => f v

/-- nullproof (lines 84-87): the value of the key when present and not
None, else 0. -/
def nullproof (key : String) (data : Packet) : ℚ :=
  match data.lookup key with
  | some (some v) => v
  | _ => 0

/-- Wind direction stanza (lines 156-159): "%03d" of int(value) when
present and not None, else the three-space sentinel. -/
def windDirField (packet : Packet) : String :=
  match packet.lookup "windDir" with
  | some (some v) => pyFmtD 3 (pyInt v)
  | _ => "   "

/-- Wind speed stanza (lines 162-165).  The guard checks the key
windSpeed but the value is read from the key windspeed, exactly as in the
source; a packet carrying only windSpeed therefore raises KeyError. -/
def windSpeedField (cv : UnitConv) (pu : Option ℚ) (packet : Packet) :
    Except PyErr String :=
  match packet.lookup "windSpeed" with
  | some (some _) =>
    (pyItem packet "windspeed").bind fun raw =>
    (pyNum raw).bind fun rawv =>
    (convert cv rawv "windSpeed" "group_speed" pu "mile_per_hour").map fun q =>
    "/" ++ pyFmtD 3 (pyInt q)
  | _ => .ok "/   "

/-- Wind gust stanza (lines 168-171), with the same guard-key/read-key
mismatch (windGust versus windgust) as the source. -/
def windGustField (cv : UnitConv) (pu : Option ℚ) (packet : Packet) :
    Except PyErr String :=
  match packet.lookup "windGust" with
  | some (some _) =>
    (pyItem packet "windgust").bind fun raw =>
    (pyNum raw).bind fun rawv =>
    (convert cv rawv "windGust" "group_speed" pu "mile_per_hour").map fun q =>
    "g" ++ pyFmtD 3 (pyInt q)
  | _ => .ok "g   "

/-- Temperature stanza (lines 174-177). -/
def outTempField (cv : UnitConv) (pu : Option ℚ) (packet : Packet) :
    Except PyErr String :=
  match packet.lookup "outTemp" with
  | some (some v) =>
    (convert cv v "outTemp" "group_temperature" pu "degree_F").map fun q =>
    "t" ++ pyFmtD 3 (pyInt q)
  | _ => .ok "t   "

/-- Humidity stanza (lines 180-183): "h%02d" of int(value) when present,
else the sentinel of the source, which is the letter h followed by THREE
spaces (total width 4). -/
def outHumidityField (packet : Packet) : String :=
  match packet.lookup "outHumidity" with
  | some (some v) => "h" ++ pyFmtD 2 (pyInt v)
  | _ => "h   "

/-- Barometer stanza (lines 186-189): "b%05d" of int(converted * 10),
else the letter b followed by five spaces. -/
def barometerField (cv : UnitConv) (pu : Option ℚ) (packet : Packet) :
    Except PyErr String :=
  match packet.lookup "barometer" with
  | some (some v) =>
    (convert cv v "pressure" "group_pressure" pu "mbar").map fun q =>
    "b" ++ pyFmtD 5 (pyInt (q * 10))
  | _ => .ok "b     "

/-- First numeric use of the stored dateTime (line 192 passing it into
calcRainHour, whose line 91 computes ts - 3600): a None timestamp raises
TypeError there. -/
def tsVal (dt : Option ℚ) : Except PyErr ℚ :=
  match dt with
  | some q => .ok q
  | none => .error .typeError

/-- Hour-rain stanza (lines 192-195): always query the archive for the
trailing hour, coerce a None aggregate to 0, and convert the result to
inches.  No packet key is consulted. -/
def hourRainVal (cv : UnitConv) (pu : Option ℚ) (archive : DbManager) (ts : ℚ) :
    Except PyErr ℚ :=
  let v : ℚ := match calcRainHour archive ts with
    | none => 0
    | some x => x
  convert cv v "rain" "group_rain" pu "inch"

/-- rain24 stanza (lines 197-202): when the key rain24 is present use
nullproof (None coerced to 0) without querying, else query the trailing
24 hours and coerce a None aggregate to 0; convert the result. -/
def rain24Val (cv : UnitConv) (pu : Option ℚ) (packet : Packet)
    (archive : DbManager) (ts : ℚ) : Except PyErr ℚ :=
  let v : ℚ :=
    if hasKey packet "rain24" then nullproof "rain24" packet
    else match calcRain24 archive ts with
      | none => 0
      | some x => x
  convert cv v "rain" "group_rain" pu "inch"

/-- dayRain stanza (lines 204-209), analogous to rain24 with the
day-to-date window. -/
def dayRainVal (cv : UnitConv) (sod : ℚ → ℚ) (pu : Option ℚ) (packet : Packet)
    (archive : DbManager) (ts : ℚ) : Except PyErr ℚ :=
  let v : ℚ :=
    if hasKey packet "dayRain" then nullproof "dayRain" packet
    else match calcDayRain sod archive ts with
      | none => 0
      | some x => x
  convert cv v "rain" "group_rain" pu "inch"

/-- The data dict built by calculate (lines 150-212): the stored
timestamp, the six encoded fields, and the three numeric rain values. -/
structure CalcData where
  dateTime : Option ℚ
  windDir : String
  windSpeed : String
  windGust : String
  outTemp : String
  outHumidity : String
  barometer : String
  hourRain : ℚ
  rain24 : ℚ
  dayRain : ℚ
deriving DecidableEq

/-- calculate (lines 150-212), assembling the stanzas in source order;
any raise in a stanza aborts the whole computation, as in Python. -/
def calculate (cv : UnitConv) (sod : ℚ → ℚ) (packet : Packet)
    (archive : DbManager) : Except PyErr CalcData :=
  let pu := pyGet packet "usUnits"
  (pyItem packet "dateTime").bind fun dateTime =>
  (windSpeedField cv pu packet).bind fun windSpeed =>
  (windGustField cv pu packet).bind fun windGust =>
  (outTempField cv pu packet).bind fun outTemp =>
  (barometerField cv pu packet).bind fun barometer =>
  (tsVal dateTime).bind fun ts =>
  (hourRainVal cv pu archive ts).bind fun hourRain =>
  (rain24Val cv pu packet archive ts).bind fun rain24 =>
  (dayRainVal cv sod pu packet archive ts).map fun dayRain =>
  { dateTime := dateTime
    windDir := windDirField packet
    windSpeed := windSpeed
    windGust := windGust
    outTemp := outTemp
    outHumidity := outHumidityField packet
    barometer := barometer
    hourRain := hourRain
    rain24 := rain24
    dayRain := dayRain }

/-- The nine fields appended by write_data (lines 215-224): the six
computed fields interleaved with the three HARDCODED rain sentinels;
lines 220-222 append the constants "r   ", "p   ", "P   " and keep the
real encodings only in comments. -/
def wxnowFields (data : CalcData) : List String :=
  [data.windDir, data.windSpeed, data.windGust, data.outTemp,
   "r   ", "p   ", "P   ",
   data.outHumidity, data.barometer]

/-- The data line written by write_data (line 229), before its
terminating newline. -/
def dataLine (data : CalcData) : String :=
  String.join (wxnowFields data)

/-- The full file content written by write_data (lines 226-230): the
strftime timestamp line (including its newline), the data line, and a
final newline.  The ft parameter models time.strftime of the local time
of the stored timestamp (external collaborator), newline included. -/
def fileContent (ft : Option ℚ → String) (data : CalcData) : String :=
  ft data.dateTime ++ dataLine data ++ "\n"

/-- handle_data (lines 142-148): run calculate then write the file,
replacing its prior content; every raised exception is caught and logged,
leaving the previously written file untouched.  The function is total:
no exception propagates to the caller of the per-event handler. -/
def handle_data (cv : UnitConv) (sod : ℚ → ℚ) (ft : Option ℚ → String)
    (packet : Packet) (archive : DbManager) (fileState : Option String) :
    Option String :=
  match calculate cv sod packet archive with
  | .error _ => fileState
  | .ok d => some (fileContent ft d)

/-- Specification-side definition, written from the words of spec section
4.2: the sum of the rain depths of the archive rows with timestamp
strictly after t0 and at most t1, absent (not zero) when no row in the
window carries a rain value.  Used only to compare the source-derived
aggregators against the specified windows. -/
def specWindowSum (rows : List (ℚ × Option ℚ)) (t0 t1 : ℚ) : Option ℚ :=
  let depths := (rows.filter fun r => decide (t0 < r.1) && decide (r.1 ≤ t1)).filterMap Prod.snd
  if depths.isEmpty then none else some depths.sum

/-- Identity unit converter: every combination is defined and every unit
is already the target unit (e.g. a US-unit packet whose speeds are mph,
temperatures degrees F, rain depths inches and pressures already in
millibar under the chosen collaborator instance). -/
def cvId : UnitConv :=
  ⟨fun _ _ _ _ => .ok id⟩

/-- Converter instance whose temperature conversion is undefined (raises
ConversionError) while every other combination is the identity. -/
def cvFailTemp : UnitConv :=
  ⟨fun metric _ _ _ => if metric = "outTemp" then .error .convError else .ok id⟩

/-- Trivial timestamp-line formatter used for concrete runs. -/
def ftNull : Option ℚ → String :=
  fun _ => "Jan 01 1970 00:00\n"

def pktA : Packet :=
  [("dateTime", some 100000), ("usUnits", some 1), ("windDir", some 315.4),
   ("windSpeed", some 12.3), ("outTemp", some 68.9), ("outHumidity", some 54),
   ("barometer", some 1013.2)]

def pktA2 : Packet := pktA ++ [("windspeed", some 12.3)]

def pktC1 : Packet := [("dateTime", some 7200), ("usUnits", some 1)]

def archC1 : DbManager := ⟨[(4000, some 0.15)]⟩

def pktC5 : Packet := [("dateTime", some 0), ("usUnits", some 1)]

def pktC6 : Packet := [("dateTime", some 0)]

def dAbsent0 : CalcData :=
  ⟨some 0, "   ", "/   ", "g   ", "t   ", "h   ", "b     ", 0, 0, 0⟩

theorem bind_ok_iff {α β : Type} {e : Except PyErr α} {f : α → Except PyErr β} {b : β} :
    e.bind f = .ok b ↔ ∃ a, e = .ok a ∧ f a = .ok b := by
  cases e <;> simp [Except.bind]

theorem map_ok_iff {α β : Type} {e : Except PyErr α} {f : α → β} {b : β} :
    e.map f = .ok b ↔ ∃ a, e = .ok a ∧ f a = b := by
  cases e <;> simp [Except.map]

theorem calculate_ok_elim {cv : UnitConv} {sod : ℚ → ℚ} {packet : Packet}
    {archive : DbManager} {d : CalcData}
    (h : calculate cv sod packet archive = .ok d) :
    ∃ dateTime windSpeed windGust outTemp barometer ts hourRain rain24 dayRain,
      pyItem packet "dateTime" = .ok dateTime ∧
      windSpeedField cv (pyGet packet "usUnits") packet = .ok windSpeed ∧
      windGustField cv (pyGet packet "usUnits") packet = .ok windGust ∧
      outTempField cv (pyGet packet "usUnits") packet = .ok outTemp ∧
      barometerField cv (pyGet packet "usUnits") packet = .ok barometer ∧
      tsVal dateTime = .ok ts ∧
      hourRainVal cv (pyGet packet "usUnits") archive ts = .ok hourRain ∧
      rain24Val cv (pyGet packet "usUnits") packet archive ts = .ok rain24 ∧
      dayRainVal cv sod (pyGet packet "usUnits") packet archive ts = .ok dayRain ∧
      d = ⟨dateTime, windDirField packet, windSpeed, windGust, outTemp,
           outHumidityField packet, barometer, hourRain, rain24, dayRain⟩ := by
  unfold calculate at h
  simp only [bind_ok_iff, map_ok_iff] at h
  obtain ⟨dt, h1, ws, h2, wg, h3, ot, h4, bar, h5, ts, h6, hr, h7, r24, h8, dr, h9, h10⟩ := h
  exact ⟨dt, ws, wg, ot, bar, ts, hr, r24, dr, h1, h2, h3, h4, h5, h6, h7, h8, h9, h10.symm⟩

theorem natCharsGo_eq_of_le :
    ∀ (fuel : ℕ) (n fuel' : ℕ), n ≤ fuel → n ≤ fuel' →
      natCharsGo fuel n = natCharsGo fuel' n := by
  intro fuel
  induction fuel with
  | zero =>
    intro n fuel' h1 _
    interval_cases n
    cases fuel' <;> simp [natCharsGo]
  | succ f ih =>
    intro n fuel' h1 h2
    cases fuel' with
    | zero =>
      interval_cases n
      simp [natCharsGo]
    | succ f' =>
      by_cases hn : n < 10
      · simp [natCharsGo, hn]
      · have hd : n / 10 < n := Nat.div_lt_self (by omega) (by omega)
        simp only [natCharsGo, hn, if_false]
        rw [ih (n / 10) f' (by omega) (by omega)]

theorem natChars_step (n : ℕ) :
    natChars n = if n < 10 then [Nat.digitChar n]
      else natChars (n / 10) ++ [Nat.digitChar (n % 10)] := by
  cases n with
  | zero => simp [natChars, natCharsGo]
  | succ m =>
    by_cases hn : m + 1 < 10
    · simp [natChars, natCharsGo, hn]
    · have hd : (m + 1) / 10 < m + 1 := Nat.div_lt_self (by omega) (by omega)
      simp only [natChars, natCharsGo, hn, if_false]
      rw [natCharsGo_eq_of_le m ((m + 1) / 10) ((m + 1) / 10) (by omega) le_rfl]

theorem natChars_length_pos (n : ℕ) : 0 < (natChars n).length := by
  rw [natChars_step]
  split <;> simp

theorem natChars_length_of_lt_ten {n : ℕ} (h : n < 10) :
    (natChars n).length = 1 := by
  rw [natChars_step]
  simp [h]

theorem natChars_length_le_two {n : ℕ} (h : n < 100) :
    (natChars n).length ≤ 2 := by
  rw [natChars_step]
  by_cases hn : n < 10
  · simp [hn]
  · have : n / 10 < 10 := by omega
    simp [hn, natChars_length_of_lt_ten this]

theorem two_le_natChars_length {n : ℕ} (h : 10 ≤ n) :
    2 ≤ (natChars n).length := by
  rw [natChars_step]
  have hn : ¬ n < 10 := by omega
  simp [hn]
  exact natChars_length_pos _

theorem three_le_natChars_length {n : ℕ} (h : 100 ≤ n) :
    3 ≤ (natChars n).length := by
  rw [natChars_step]
  have hn : ¬ n < 10 := by omega
  have h10 : 10 ≤ n / 10 := by omega
  simp [hn]
  have := two_le_natChars_length h10
  omega

theorem padZero_length (w : ℕ) (s : List Char) :
    (padZero w s).length = max w s.length := by
  simp [padZero]
  omega

theorem humidity_present_length_iff (n : ℤ) :
    (("h" ++ pyFmtD 2 n : String).length = 3) ↔ (-9 ≤ n ∧ n ≤ 99) := by
  have hh : ("h" : String).length = 1 := rfl
  rw [String.length_append, hh]
  unfold pyFmtD
  by_cases hn : n < 0
  · simp only [hn, if_true]
    have hmk : (String.mk ('-' :: padZero 1 (natChars n.natAbs))).length
        = 1 + (padZero 1 (natChars n.natAbs)).length := by
      simp [String.length]
      omega
    rw [hmk, padZero_length]
    constructor
    · intro h
      have h10 : n.natAbs < 10 := by
        by_contra hc
        have := two_le_natChars_length (n := n.natAbs) (by omega)
        omega
      omega
    · intro h
      have h10 : n.natAbs < 10 := by omega
      have hL := natChars_length_of_lt_ten h10
      omega
  · simp only [hn, if_false]
    have hmk : (String.mk (padZero 2 (natChars n.natAbs))).length
        = (padZero 2 (natChars n.natAbs)).length := by
      simp [String.length]
    rw [hmk, padZero_length]
    constructor
    · intro h
      have h100 : n.natAbs < 100 := by
        by_contra hc
        have := three_le_natChars_length (n := n.natAbs) (by omega)
        omega
      omega
    · intro h
      have h100 : n.natAbs < 100 := by omega
      have hL := natChars_length_le_two h100
      have hP := natChars_length_pos n.natAbs
      omega

theorem sentinelFields_of_absent {cv : UnitConv} {sod : ℚ → ℚ} {packet : Packet}
    {archive : DbManager} {d : CalcData}
    (hwd : packet.lookup "windDir" = none)
    (hws : packet.lookup "windSpeed" = none)
    (hwg : packet.lookup "windGust" = none)
    (hot : packet.lookup "outTemp" = none)
    (hoh : packet.lookup "outHumidity" = none)
    (hb : packet.lookup "barometer" = none)
    (h : calculate cv sod packet archive = .ok d) :
    d.windDir = "   " ∧ d.windSpeed = "/   " ∧ d.windGust = "g   " ∧
    d.outTemp = "t   " ∧ d.outHumidity = "h   " ∧ d.barometer = "b     " := by
  obtain ⟨dt, ws, wg, ot, bar, ts, hr, r24, dr,
    h1, h2, h3, h4, h5, h6, h7, h8, h9, h10⟩ := calculate_ok_elim h
  subst h10
  simp only [windSpeedField, hws] at h2
  simp only [windGustField, hwg] at h3
  simp only [outTempField, hot] at h4
  simp only [barometerField, hb] at h5
  refine ⟨?_, ?_, ?_, ?_, ?_, ?_⟩
  · simp [windDirField, hwd]
  · simpa using h2.symm
  · simpa using h3.symm
  · simpa using h4.symm
  · simp [outHumidityField, hoh]
  · simpa using h5.symm

/-- C5 (amended): encoding an absent value yields a field of the spec
table width for every quantity except outside humidity, whose sentinel is
the letter h followed by three spaces, width 4 rather than the specified
3. -/
theorem c5_absent_field_widths (cv : UnitConv) (sod : ℚ → ℚ) (packet : Packet)
    (archive : DbManager) (d : CalcData)
    (hwd : packet.lookup "windDir" = none)
    (hws : packet.lookup "windSpeed" = none)
    (hwg : packet.lookup "windGust" = none)
    (hot : packet.lookup "outTemp" = none)
    (hoh : packet.lookup "outHumidity" = none)
    (hb : packet.lookup "barometer" = none)
    (h : calculate cv sod packet archive = .ok d) :
    (d.windDir = "   " ∧ d.windSpeed = "/   " ∧ d.windGust = "g   " ∧
     d.outTemp = "t   " ∧ d.outHumidity = "h   " ∧ d.barometer = "b     ") ∧
    d.windDir.length = 3 ∧ d.windSpeed.length = 4 ∧ d.windGust.length = 4 ∧
    d.outTemp.length = 4 ∧ d.outHumidity.length = 4 ∧ d.barometer.length = 6 := by
  obtain ⟨e1, e2, e3, e4, e5, e6⟩ :=
    sentinelFields_of_absent hwd hws hwg hot hoh hb h
  exact ⟨⟨e1, e2, e3, e4, e5, e6⟩, by rw [e1]; decide, by rw [e2]; decide,
    by rw [e3]; decide, by rw [e4]; decide, by rw [e5]; decide,
    by rw [e6]; decide⟩

/-- C5 counterexample: for an observation with no humidity value the
encoded humidity field is "h" followed by three spaces, of width 4, not
the width 3 the spec table specifies. -/
theorem c5_counterexample :
    (calculate cvId id pktC5 ⟨[]⟩).map
      (fun d => (d.outHumidity, d.outHumidity.length)) = .ok ("h   ", 4) ∧
    (4 : ℕ) ≠ 3 := by
  constructor
  · with_unfolding_all rfl
  · decide

/-- C5 witness: the amended width statement at a concrete all-absent
observation. -/
theorem c5_witness :
    pktC5.lookup "windDir" = none ∧
    ((dAbsent0.windDir = "   " ∧ dAbsent0.windSpeed = "/   " ∧
      dAbsent0.windGust = "g   " ∧ dAbsent0.outTemp = "t   " ∧
      dAbsent0.outHumidity = "h   " ∧ dAbsent0.barometer = "b     ") ∧
     dAbsent0.windDir.length = 3 ∧ dAbsent0.windSpeed.length = 4 ∧
     dAbsent0.windGust.length = 4 ∧ dAbsent0.outTemp.length = 4 ∧
     dAbsent0.outHumidity.length = 4 ∧ dAbsent0.barometer.length = 6) :=
  ⟨rfl, c5_absent_field_widths cvId id pktC5 ⟨[]⟩ dAbsent0
    rfl rfl rfl rfl rfl rfl (by with_unfolding_all rfl)⟩

/-- C6 (amended): for an observation carrying none of the six encoded
quantities, a successful run writes a data line of exactly 37 characters,
not 36: the absent-humidity sentinel is four wide. -/
theorem c6_data_line_length (cv : UnitConv) (sod : ℚ → ℚ) (packet : Packet)
    (archive : DbManager) (d : CalcData)
    (hwd : packet.lookup "windDir" = none)
    (hws : packet.lookup "windSpeed" = none)
    (hwg : packet.lookup "windGust" = none)
    (hot : packet.lookup "outTemp" = none)
    (hoh : packet.lookup "outHumidity" = none)
    (hb : packet.lookup "barometer" = none)
    (h : calculate cv sod packet archive = .ok d) :
    (dataLine d).length = 37 := by
  obtain ⟨e1, e2, e3, e4, e5, e6⟩ :=
    sentinelFields_of_absent hwd hws hwg hot hoh hb h
  simp only [dataLine, wxnowFields, e1, e2, e3, e4, e5, e6]
  decide

/-- C6 counterexample: a concrete successful run with every optional
quantity absent writes a 37-character data line. -/
theorem c6_counterexample :
    (calculate cvId id pktC6 ⟨[]⟩).map (fun d => (dataLine d).length) = .ok 37 ∧
    (37 : ℕ) ≠ 36 := by
  constructor
  · with_unfolding_all rfl
  · decide

/-- C6 witness: the amended length statement at a concrete all-absent
observation. -/
theorem c6_witness : (dataLine dAbsent0).length = 37 :=
  c6_data_line_length cvId id pktC6 ⟨[]⟩ dAbsent0
    rfl rfl rfl rfl rfl rfl (by with_unfolding_all rfl)

/-- C10 (amended): a present humidity value v is encoded as "h" plus
int(v) forced to at least two digits of zero padding, with the minus sign
of a negative value counted inside the padding width; the field has width
3 exactly when -9 and 99 bound int(v) inclusively (not 0 and 99), and
int(v) = 100 yields the four-wide field "h100". -/
theorem c10_humidity_width (cv : UnitConv) (sod : ℚ → ℚ) (packet : Packet)
    (archive : DbManager) (d : CalcData) (v : ℚ)
    (hv : packet.lookup "outHumidity" = some (some v))
    (h : calculate cv sod packet archive = .ok d) :
    d.outHumidity = "h" ++ pyFmtD 2 (pyInt v) ∧
    (d.outHumidity.length = 3 ↔ (-9 ≤ pyInt v ∧ pyInt v ≤ 99)) ∧
    (pyInt v = 100 → d.outHumidity = "h100") := by
  obtain ⟨dt, ws, wg, ot, bar, ts, hr, r24, dr,
    h1, h2, h3, h4, h5, h6, h7, h8, h9, h10⟩ := calculate_ok_elim h
  subst h10
  have he : outHumidityField packet = "h" ++ pyFmtD 2 (pyInt v) := by
    simp [outHumidityField, hv]
  refine ⟨he, ?_, ?_⟩
  · rw [show (⟨dt, windDirField packet, ws, wg, ot, outHumidityField packet,
        bar, hr, r24, dr⟩ : CalcData).outHumidity = outHumidityField packet
        from rfl, he]
    exact humidity_present_length_iff (pyInt v)
  · intro h100
    show outHumidityField packet = "h100"
    rw [he, h100]
    decide

/-- C10 counterexample: humidity value -5 lies outside 0..99 yet its
encoded field "h-5" has width exactly 3, not more than 3 as the claim
asserts for out-of-range values. -/
theorem c10_counterexample :
    (calculate cvId id [("dateTime", some 0), ("outHumidity", some (-5))] ⟨[]⟩).map
      (fun d => (d.outHumidity, d.outHumidity.length)) = .ok ("h-5", 3) ∧
    pyInt (-5 : ℚ) = -5 ∧
    ¬ (("h-5" : String).length > 3) := by
  refine ⟨?_, ?_, ?_⟩
  · with_unfolding_all rfl
  · with_unfolding_all rfl
  · decide

/-- C10 witness: the amended humidity-width statement at a concrete
observation with humidity 54. -/
theorem c10_witness :
    ([("dateTime", some 0), ("outHumidity", some 54)] : Packet).lookup
      "outHumidity" = some (some 54) ∧
    (let d : CalcData :=
      ⟨some 0, "   ", "/   ", "g   ", "t   ", "h54", "b     ", 0, 0, 0⟩
     d.outHumidity = "h" ++ pyFmtD 2 (pyInt 54) ∧
     (d.outHumidity.length = 3 ↔ (-9 ≤ pyInt 54 ∧ pyInt 54 ≤ 99)) ∧
     (pyInt 54 = 100 → d.outHumidity = "h100")) :=
  ⟨rfl, c10_humidity_width cvId id
    [("dateTime", some 0), ("outHumidity", some 54)] ⟨[]⟩
    ⟨some 0, "   ", "/   ", "g   ", "t   ", "h54", "b     ", 0, 0, 0⟩
    54 rfl (by with_unfolding_all rfl)⟩

/-- C1 (amended): when the observation timestamp is present, the rain
conversion is defined, and the trailing-hour archive query returns a sum
s, a successful run stores the converted aggregate in the hourRain datum
but the rain-last-hour field of the written data line is still the
hardcoded blank sentinel "r   ", never an encoding of the aggregate. -/
theorem c1_rain_hour_sentinel (cv : UnitConv) (sod : ℚ → ℚ) (packet : Packet)
    (archive : DbManager) (d : CalcData) (ts s : ℚ) (f : ℚ → ℚ)
    (hdt : packet.lookup "dateTime" = some (some ts))
    (hcv : cv.conv "rain" "group_rain" (pyGet packet "usUnits") "inch" = .ok f)
    (hag : calcRainHour archive ts = some s)
    (h : calculate cv sod packet archive = .ok d) :
    (wxnowFields d).getD 4 "" = "r   " ∧ d.hourRain = f s := by
  obtain ⟨dt, ws, wg, ot, bar, ts0, hr, r24, dr,
    h1, h2, h3, h4, h5, h6, h7, h8, h9, h10⟩ := calculate_ok_elim h
  subst h10
  simp only [pyItem, hdt] at h1
  obtain rfl : some ts = dt := by
    cases h1
    rfl
  simp only [tsVal] at h6
  obtain rfl : ts = ts0 := by
    cases h6
    rfl
  simp only [hourRainVal, hag, convert, hcv, Except.map] at h7
  obtain rfl : f s = hr := by
    cases h7
    rfl
  exact ⟨rfl, rfl⟩

/-- C1 counterexample: the observation lacks every rain key, the archive
query of the trailing hour yields 0.15 inch, yet the written
rain-last-hour field is the blank sentinel rather than "r015". -/
theorem c1_counterexample :
    (calculate cvId id pktC1 archC1).map
      (fun d => ((wxnowFields d).getD 4 "", d.hourRain)) = .ok ("r   ", 0.15) ∧
    ("r   " : String) ≠ "r015" := by
  constructor
  · with_unfolding_all rfl
  · decide

/-- C1 witness: the amended statement at the concrete 0.15-inch archive. -/
theorem c1_witness :
    pktC1.lookup "dateTime" = some (some 7200) ∧
    (let d : CalcData :=
      ⟨some 7200, "   ", "/   ", "g   ", "t   ", "h   ", "b     ",
        0.15, 0.15, 0⟩
     (wxnowFields d).getD 4 "" = "r   " ∧ d.hourRain = id (0.15 : ℚ)) :=
  ⟨rfl, c1_rain_hour_sentinel cvId id pktC1 archC1
    ⟨some 7200, "   ", "/   ", "g   ", "t   ", "h   ", "b     ",
      0.15, 0.15, 0⟩
    7200 0.15 id rfl rfl (by with_unfolding_all rfl)
    (by with_unfolding_all rfl)⟩

/-- C4 (amended): the three rain fields of the written line are constant
blank sentinels regardless of any live or aggregated value; the hour-rain
datum always comes from the archive query with a None aggregate coerced
to 0 (no packet key is ever consulted for it); and for each of rain24
and dayRain a key present with value None is coerced to 0 without
querying, while with an absent key a None aggregate is likewise coerced
to 0 rather than kept absent. -/
theorem c4_rain_resolution (cv : UnitConv) (sod : ℚ → ℚ) (packet : Packet)
    (archive : DbManager) (d : CalcData) (ts : ℚ) (f : ℚ → ℚ)
    (hdt : packet.lookup "dateTime" = some (some ts))
    (hcv : cv.conv "rain" "group_rain" (pyGet packet "usUnits") "inch" = .ok f)
    (h : calculate cv sod packet archive = .ok d) :
    ((wxnowFields d).getD 4 "" = "r   " ∧ (wxnowFields d).getD 5 "" = "p   " ∧
     (wxnowFields d).getD 6 "" = "P   ") ∧
    d.hourRain = f (match calcRainHour archive ts with | none => 0 | some x => x) ∧
    (packet.lookup "rain24" = some none → d.rain24 = f 0) ∧
    (packet.lookup "rain24" = none → calcRain24 archive ts = none →
      d.rain24 = f 0) ∧
    (packet.lookup "dayRain" = some none → d.dayRain = f 0) ∧
    (packet.lookup "dayRain" = none → calcDayRain sod archive ts = none →
      d.dayRain = f 0) := by
  obtain ⟨dt, ws, wg, ot, bar, ts0, hr, r24, dr,
    h1, h2, h3, h4, h5, h6, h7, h8, h9, h10⟩ := calculate_ok_elim h
  subst h10
  simp only [pyItem, hdt] at h1
  obtain rfl : some ts = dt := by
    cases h1
    rfl
  simp only [tsVal] at h6
  obtain rfl : ts = ts0 := by
    cases h6
    rfl
  simp only [hourRainVal, convert, hcv, Except.map] at h7
  obtain rfl : _ = hr := by
    cases h7
    rfl
  refine ⟨⟨rfl, rfl, rfl⟩, rfl, ?_, ?_, ?_, ?_⟩
  · intro hnull
    simp only [rain24Val, hasKey, hnull, Option.isSome_some, if_true,
      nullproof, convert, hcv, Except.map] at h8
    cases h8
    rfl
  · intro habs hnone
    simp only [rain24Val, hasKey, habs, Option.isSome_none, if_false,
      hnone, convert, hcv, Except.map] at h8
    cases h8
    rfl
  · intro hnull
    simp only [dayRainVal, hasKey, hnull, Option.isSome_some, if_true,
      nullproof, convert, hcv, Except.map] at h9
    cases h9
    rfl
  · intro habs hnone
    simp only [dayRainVal, hasKey, habs, Option.isSome_none, if_false,
      hnone, convert, hcv, Except.map] at h9
    cases h9
    rfl

/-- C4 counterexample: the observation supplies rain24 = 0.15; the value
is converted into the rain24 datum but the written field is the constant
sentinel "p   ", not an encoding of 0.15. -/
theorem c4_counterexample :
    (calculate cvId id
      [("dateTime", some 5000), ("usUnits", some 1), ("rain24", some 0.15)]
      ⟨[]⟩).map
      (fun d => (d.rain24, (wxnowFields d).getD 5 "")) = .ok (0.15, "p   ") ∧
    ("p   " : String) ≠ "p015" := by
  constructor
  · with_unfolding_all rfl
  · decide

/-- C4 witness: the amended rain-resolution statement at a concrete
observation whose rain24 key is present with value None. -/
theorem c4_witness :
    ([("dateTime", some 5000), ("rain24", none)] : Packet).lookup "dateTime"
      = some (some 5000) ∧
    (let d : CalcData :=
      ⟨some 5000, "   ", "/   ", "g   ", "t   ", "h   ", "b     ", 0, 0, 0⟩
     ((wxnowFields d).getD 4 "" = "r   " ∧ (wxnowFields d).getD 5 "" = "p   " ∧
      (wxnowFields d).getD 6 "" = "P   ") ∧
     d.hourRain = id (match calcRainHour ⟨[]⟩ 5000 with | none => 0 | some x => x) ∧
     (([("dateTime", some 5000), ("rain24", none)] : Packet).lookup "rain24"
        = some none → d.rain24 = id 0) ∧
     (([("dateTime", some 5000), ("rain24", none)] : Packet).lookup "rain24"
        = none → calcRain24 ⟨[]⟩ 5000 = none → d.rain24 = id 0) ∧
     (([("dateTime", some 5000), ("rain24", none)] : Packet).lookup "dayRain"
        = some none → d.dayRain = id 0) ∧
     (([("dateTime", some 5000), ("rain24", none)] : Packet).lookup "dayRain"
        = none → calcDayRain id ⟨[]⟩ 5000 = none → d.dayRain = id 0)) :=
  ⟨rfl, c4_rain_resolution cvId id [("dateTime", some 5000), ("rain24", none)]
    ⟨[]⟩ ⟨some 5000, "   ", "/   ", "g   ", "t   ", "h   ", "b     ", 0, 0, 0⟩
    5000 id rfl rfl (by with_unfolding_all rfl)⟩

/-- C2 counterexample: on the Scenario A observation the wind-speed
stanza raises KeyError for the lowercase key windspeed (the guard checks
windSpeed), so no data line is produced at all and the handler leaves the
prior file content untouched. -/
theorem c2_counterexample :
    calculate cvId id pktA ⟨[]⟩ = .error (.keyError "windspeed") ∧
    handle_data cvId id ftNull pktA ⟨[]⟩ (some "prior") = some "prior" := by
  constructor <;> with_unfolding_all rfl

/-- C2 (amended): the Scenario A observation itself makes calculate raise
KeyError on windspeed; on the variant observation that also carries the
lowercase windspeed key with the same value, the written data line is the
36-character "315/012g   t068r   p   P   h54b10132", which contains the
three hardcoded rain sentinels the spec string omits. -/
theorem c2_scenario_a :
    calculate cvId id pktA ⟨[]⟩ = .error (.keyError "windspeed") ∧
    (calculate cvId id pktA2 ⟨[]⟩).map dataLine
      = .ok "315/012g   t068r   p   P   h54b10132" ∧
    ("315/012g   t068r   p   P   h54b10132" : String).length = 36 := by
  refine ⟨?_, ?_, ?_⟩
  · with_unfolding_all rfl
  · with_unfolding_all rfl
  · decide

/-- C3: evaluation of calculate at the failing input, an observation
carrying a timestamp and a non-absent windSpeed value: the run raises
KeyError for the key windspeed, contradicting the guarantee that assemble
does not raise when windSpeed is present. -/
theorem c3_windspeed_keyerror :
    calculate cvId id
      [("dateTime", some 1000), ("usUnits", some 1), ("windSpeed", some 10)]
      ⟨[]⟩ = .error (.keyError "windspeed") := by
  with_unfolding_all rfl

/-- C7: the three aggregators sum the rain column over exactly the
specified windows, written against the spec-side window sum: the trailing
hour (t - 3600, t], the trailing day (t - 86400, t], and the local day
(startOfDay t, t]; and the window sum is absent exactly when no row in
the window carries a rain value. -/
theorem c7_window_sums (rows : List (ℚ × Option ℚ)) (t : ℚ) (sod : ℚ → ℚ) :
    calcRainHour ⟨rows⟩ t = specWindowSum rows (t - 3600) t ∧
    calcRain24 ⟨rows⟩ t = specWindowSum rows (t - 86400) t ∧
    calcDayRain sod ⟨rows⟩ t = specWindowSum rows (sod t) t ∧
    (∀ a b : ℚ, specWindowSum rows a b = none ↔
      ∀ r ∈ rows, a < r.1 → r.1 ≤ b → r.2 = none) := by
  refine ⟨rfl, rfl, rfl, ?_⟩
  intro a b
  unfold specWindowSum
  constructor
  · intro h r hr hlt hle
    by_cases hempty :
        ((rows.filter fun r => decide (a < r.1) && decide (r.1 ≤ b)).filterMap
          Prod.snd).isEmpty
    · rw [List.isEmpty_iff, List.filterMap_eq_nil_iff] at hempty
      exact hempty r (List.mem_filter.mpr ⟨hr, by simp [hlt, hle]⟩)
    · simp [hempty] at h
  · intro h
    have hempty :
        ((rows.filter fun r => decide (a < r.1) && decide (r.1 ≤ b)).filterMap
          Prod.snd) = [] := by
      rw [List.filterMap_eq_nil_iff]
      intro r hr
      obtain ⟨hmem, hcond⟩ := List.mem_filter.mp hr
      simp only [Bool.and_eq_true, decide_eq_true_eq] at hcond
      exact h r hmem hcond.1 hcond.2
    simp [hempty]

/-- C7 witness: the window characterization at a concrete one-row
archive. -/
theorem c7_witness :
    calcRainHour ⟨[(4000, some 1)]⟩ 7200
      = specWindowSum [(4000, some 1)] (7200 - 3600) 7200 ∧
    calcRain24 ⟨[(4000, some 1)]⟩ 7200
      = specWindowSum [(4000, some 1)] (7200 - 86400) 7200 ∧
    calcDayRain id ⟨[(4000, some 1)]⟩ 7200
      = specWindowSum [(4000, some 1)] (id (7200 : ℚ)) 7200 ∧
    (∀ a b : ℚ, specWindowSum [(4000, some 1)] a b = none ↔
      ∀ r ∈ [((4000 : ℚ), some (1 : ℚ))], a < r.1 → r.1 ≤ b → r.2 = none) :=
  c7_window_sums [(4000, some 1)] 7200 id

/-- C8: when the observation carries a non-absent outTemp and the
temperature conversion is undefined for the packet unit system, the whole
calculate run fails, and the handler catches the raise and leaves the
previously written file untouched; handle_data is total, so the failure
does not propagate to the event stream. -/
theorem c8_conversion_failure (cv : UnitConv) (sod : ℚ → ℚ)
    (ft : Option ℚ → String) (packet : Packet) (archive : DbManager)
    (fs : Option String)
    (hval : hasVal packet "outTemp" = true)
    (hcv : cv.conv "outTemp" "group_temperature" (pyGet packet "usUnits")
      "degree_F" = .error .convError) :
    (calculate cv sod packet archive).isOk = false ∧
    handle_data cv sod ft packet archive fs = fs := by
  have hNotOk : ∀ d, calculate cv sod packet archive ≠ .ok d := by
    intro d hok
    obtain ⟨dt, ws, wg, ot, bar, ts0, hr, r24, dr,
      g1, g2, g3, g4, g5, g6, g7, g8, g9, g10⟩ := calculate_ok_elim hok
    unfold hasVal at hval
    cases hl : packet.lookup "outTemp" with
    | none => rw [hl] at hval; cases hval
    | some o =>
      cases o with
      | none => rw [hl] at hval; cases hval
      | some x =>
        rw [outTempField, hl] at g4
        simp only [convert, hcv, Except.map] at g4
        cases g4
  cases hcalc : calculate cv sod packet archive with
  | error e =>
    exact ⟨by rfl, by unfold handle_data; rw [hcalc]⟩
  | ok d => exact absurd hcalc (hNotOk d)

/-- C8 witness: the conversion-failure guarantee at a concrete
observation and a converter whose temperature combination is undefined. -/
theorem c8_witness :
    hasVal [("dateTime", some 0), ("outTemp", some 68.9)] "outTemp" = true ∧
    (calculate cvFailTemp id
        [("dateTime", some 0), ("outTemp", some 68.9)] ⟨[]⟩).isOk = false ∧
    handle_data cvFailTemp id ftNull
        [("dateTime", some 0), ("outTemp", some 68.9)] ⟨[]⟩ (some "x")
      = some "x" :=
  ⟨rfl, c8_conversion_failure cvFailTemp id ftNull
    [("dateTime", some 0), ("outTemp", some 68.9)] ⟨[]⟩ (some "x")
    rfl (by with_unfolding_all rfl)⟩

theorem handle_data_congr (cv : UnitConv) (sod : ℚ → ℚ)
    (ft : Option ℚ → String) (p1 p2 : Packet) (a1 a2 : DbManager)
    (fs : Option String)
    (hU : pyGet p1 "usUnits" = pyGet p2 "usUnits")
    (hD : pyItem p1 "dateTime" = pyItem p2 "dateTime")
    (hWD : windDirField p1 = windDirField p2)
    (hWS : windSpeedField cv (pyGet p2 "usUnits") p1
      = windSpeedField cv (pyGet p2 "usUnits") p2)
    (hWG : windGustField cv (pyGet p2 "usUnits") p1
      = windGustField cv (pyGet p2 "usUnits") p2)
    (hOT : outTempField cv (pyGet p2 "usUnits") p1
      = outTempField cv (pyGet p2 "usUnits") p2)
    (hOH : outHumidityField p1 = outHumidityField p2)
    (hB : barometerField cv (pyGet p2 "usUnits") p1
      = barometerField cv (pyGet p2 "usUnits") p2) :
    handle_data cv sod ft p1 a1 fs = handle_data cv sod ft p2 a2 fs := by
  simp only [handle_data, calculate]
  rw [hU, hD, hWD, hWS, hWG, hOT, hOH, hB]
  cases hdt : pyItem p2 "dateTime" with
  | error e => simp [Except.bind]
  | ok dt =>
    simp only [Except.bind]
    cases hws : windSpeedField cv (pyGet p2 "usUnits") p2 with
    | error e => simp [Except.bind]
    | ok ws =>
      simp only [Except.bind]
      cases hwg : windGustField cv (pyGet p2 "usUnits") p2 with
      | error e => simp [Except.bind]
      | ok wg =>
        simp only [Except.bind]
        cases hot : outTempField cv (pyGet p2 "usUnits") p2 with
        | error e => simp [Except.bind]
        | ok ot =>
          simp only [Except.bind]
          cases hb : barometerField cv (pyGet p2 "usUnits") p2 with
          | error e => simp [Except.bind]
          | ok bar =>
            simp only [Except.bind]
            cases hts : tsVal dt with
            | error e => simp [Except.bind]
            | ok ts =>
              simp only [Except.bind]
              cases hcr : cv.conv "rain" "group_rain" (pyGet p2 "usUnits")
                  "inch" with
              | error e =>
                simp [hourRainVal, convert, hcr, Except.map, Except.bind]
              | ok f =>
                simp only [hourRainVal, rain24Val, dayRainVal, convert, hcr,
                  Except.map, Except.bind, fileContent, dataLine, wxnowFields]

/-- C9: for a fixed packet the bytes written by the handler do not depend
on the archive contents, nor on the packet rain values (here: on rain24
and dayRain entries prepended to the packet); and on every successful run
the three rain fields of the written line are the constant sentinels
"r   ", "p   " and "P   ". -/
theorem c9_output_archive_independent (cv : UnitConv) (sod : ℚ → ℚ)
    (ft : Option ℚ → String) (p : Packet) (a1 a2 : DbManager)
    (fs : Option String) (v w : Option ℚ) :
    handle_data cv sod ft (("rain24", v) :: ("dayRain", w) :: p) a1 fs
      = handle_data cv sod ft p a2 fs ∧
    (∀ d : CalcData, calculate cv sod p a1 = .ok d →
      (wxnowFields d).getD 4 "" = "r   " ∧ (wxnowFields d).getD 5 "" = "p   " ∧
      (wxnowFields d).getD 6 "" = "P   ") := by
  have hlk : ∀ k : String, (k == "rain24") = false → (k == "dayRain") = false →
      List.lookup k (("rain24", v) :: ("dayRain", w) :: p) = List.lookup k p := by
    intro k e1 e2
    simp [List.lookup, e1, e2]
  constructor
  · refine handle_data_congr cv sod ft _ p a1 a2 fs ?_ ?_ ?_ ?_ ?_ ?_ ?_ ?_
    · unfold pyGet
      rw [hlk _ (by decide) (by decide)]
    · unfold pyItem
      rw [hlk _ (by decide) (by decide)]
    · unfold windDirField
      rw [hlk _ (by decide) (by decide)]
    · unfold windSpeedField pyItem
      rw [hlk "windSpeed" (by decide) (by decide),
        hlk "windspeed" (by decide) (by decide)]
    · unfold windGustField pyItem
      rw [hlk "windGust" (by decide) (by decide),
        hlk "windgust" (by decide) (by decide)]
    · unfold outTempField
      rw [hlk _ (by decide) (by decide)]
    · unfold outHumidityField
      rw [hlk _ (by decide) (by decide)]
    · unfold barometerField
      rw [hlk _ (by decide) (by decide)]
  · intro d _
    exact ⟨rfl, rfl, rfl⟩

/-- C9 witness: archive independence at a concrete packet, two distinct
archives and prepended rain values. -/
theorem c9_witness :
    handle_data cvId id ftNull
      (("rain24", some 5) :: ("dayRain", some 6) :: [("dateTime", some 0)])
      ⟨[(-100, some 3)]⟩ none
      = handle_data cvId id ftNull [("dateTime", some 0)] ⟨[]⟩ none ∧
    (∀ d : CalcData,
      calculate cvId id [("dateTime", some 0)] ⟨[(-100, some 3)]⟩ = .ok d →
      (wxnowFields d).getD 4 "" = "r   " ∧ (wxnowFields d).getD 5 "" = "p   " ∧
      (wxnowFields d).getD 6 "" = "P   ") :=
  c9_output_archive_independent cvId id ftNull [("dateTime", some 0)]
    ⟨[(-100, some 3)]⟩ ⟨[]⟩ none (some 5) (some 6)

end Cwxn
